import Mathlib

/-!
# btc-crawl: the single-peer connection lifecycle (`peer.go`)

A shallow embedding of `peer.go`.  A `Peer` is a record; every method takes the
peer and the state of the outside world and returns the updated peer and world.
The network, the codec (`btcd/wire`) and the random source are external: they
are taken as the fields of an `Env`, each a function of its arguments and of the
whole history so far, so that a theorem quantified over `Env` covers every
behaviour of the transport and the codec.  Every call on the transport is
recorded, with its outcome, in `World.trace`.

Machine integers are `Nat`/`Int` with explicit reductions: `uint32 x` is
`x mod 2^32`, the nonce is kept `mod 2^64`, a port is kept `mod 2^16`.
-/

namespace BtcCrawl

/-- A Go `error` value, identified by its text. -/
abbrev GoError := String

/-- The Go type `net.TCPAddr`: an IP (its bytes) and a port (a Go `int`). -/
structure TCPAddr where
  IP : List Nat
  Port : Int
  deriving DecidableEq, Repr

/-- An established `net.Conn`: an identity and its two socket addresses. -/
structure Conn where
  id : Nat
  localAddr : TCPAddr
  remoteAddr : TCPAddr
  deriving DecidableEq, Repr

/-- The Go type `wire.NetAddress`, with the fields `Handshake` fills in. -/
structure NetAddress where
  IP : List Nat
  Port : Nat
  deriving DecidableEq, Repr

/-- The Go type `wire.MsgVersion`. `ProtocolVersion` and `LastBlock` are `int32`,
`Nonce` is `uint64`. -/
structure MsgVersion where
  ProtocolVersion : Int
  Services : Nat
  Timestamp : Int
  AddrYou : NetAddress
  AddrMe : NetAddress
  Nonce : Nat
  UserAgent : String
  LastBlock : Int
  DisableRelayTx : Bool
  deriving DecidableEq, Repr

/-- A decoded `wire.Message`: a version message, a verack, a ping, or a message
of any other wire type, given by the name of its Go type. -/
inductive Message where
  | version (v : MsgVersion)
  | verack
  | ping (nonce : Nat)
  | other (typeName : String)
  deriving DecidableEq, Repr

/-- What `%T` prints for a message held in a `wire.Message` interface value. -/
def goTypeName : Message → String
  | .version _ => "*wire.MsgVersion"
  | .verack => "*wire.MsgVerAck"
  | .ping _ => "*wire.MsgPing"
  | .other t => t

/-- The outcome of `wire.ReadMessage`: an error, or the message and its raw
payload bytes. -/
inductive ReadResult where
  | err (e : GoError)
  | ok (msg : Message) (buf : List Nat)
  deriving DecidableEq, Repr

/-- The outcome of `net.DialTimeout`. -/
inductive DialResult where
  | err (e : GoError)
  | ok (conn : Conn)
  deriving DecidableEq, Repr

/-- The outcome of `wire.RandomUint64`. -/
inductive RandResult where
  | err (e : GoError)
  | ok (n : Nat)
  deriving DecidableEq, Repr

/-- One call on the network, with its arguments and its outcome. -/
inductive NetEvent where
  | dial (address : String) (timeout : Nat) (res : DialResult)
  | close (conn : Conn)
  | write (conn : Option Conn) (msg : Message) (pver btcnet : Nat) (res : Option GoError)
  | read (conn : Option Conn) (pver btcnet : Nat) (res : ReadResult)
  deriving DecidableEq, Repr

/-- The state outside the peer: the calls made on the network so far, the number
of draws from the random source, and the lines handed to `logger.Debugf`. -/
structure World where
  trace : List NetEvent
  randCalls : Nat
  log : List String
  deriving DecidableEq, Repr

/-- The external collaborators.  `wireProtocolVersion` and
`wireDefaultUserAgent` are the constants `wire.ProtocolVersion` and
`wire.DefaultUserAgent`, `now` is the clock read by `wire.NewMsgVersion`; the
four functions are `net.DialTimeout`, `wire.RandomUint64`, `wire.WriteMessage`
and `wire.ReadMessage`, each free to depend on everything that happened before. -/
structure Env where
  wireProtocolVersion : Int
  wireDefaultUserAgent : String
  now : World → Int
  dialTimeout : String → String → Nat → World → DialResult
  randomUint64 : World → RandResult
  writeMessage : Option Conn → Message → Nat → Nat → World → Option GoError
  readMessage : Option Conn → Nat → Nat → World → ReadResult

/-- Modelled from the spec: the declaration of `Client` is not in `peer.go`; the
spec gives the three read-only fields a peer consumes: the local protocol
version (`uint32`), the network magic (`wire.BitcoinNet`, a `uint32`) and the
local user-agent string. -/
structure Client where
  pver : Nat
  btcnet : Nat
  userAgent : String
  deriving DecidableEq, Repr

/-- The Go struct `Peer`.  `conn` is `none` for a nil `net.Conn`; `nonce` is
`uint64`, `pver` is `uint32`, `ProtocolVersion` is `int32`, `ConnectTimeout` is
a `time.Duration` in nanoseconds. -/
structure Peer where
  client : Client
  conn : Option Conn
  nonce : Nat
  pver : Nat
  Address : String
  UserAgent : String
  ProtocolVersion : Int
  ConnectTimeout : Nat
  deriving DecidableEq, Repr

/-- The Go conversion `uint32(x)` of an `int32`. -/
def uint32 (x : Int) : Nat := (x % 2 ^ 32).toNat

/-- The Go conversion `uint16(x)` of an `int`. -/
def uint16 (x : Int) : Nat := (x % 2 ^ 16).toNat

/-- The constant `time.Second`, in nanoseconds. -/
def timeSecond : Nat := 1000000000

/-- One call of `logger.Debugf`, already formatted. -/
def logDebug (w : World) (line : String) : World :=
  { w with log := w.log ++ [line] }

/-- Appends one network call to the history. -/
def record (w : World) (ev : NetEvent) : World :=
  { w with trace := w.trace ++ [ev] }

/-- `NewPeer`: the fields not listed in the composite literal are zero. -/
def NewPeer (client : Client) (address : String) : Peer :=
  { client := client
    conn := none
    nonce := 0
    pver := client.pver
    Address := address
    UserAgent := ""
    ProtocolVersion := 0
    ConnectTimeout := 20 * timeSecond }

/-- `Peer.Connect`: refuses when a connection is held, otherwise dials. -/
def Connect (env : Env) (p : Peer) (w : World) : Option GoError × Peer × World :=
  match p.conn with
  | some _ => (some "Peer already connected, can\x27t connect again.", p, w)
  | none =>
    match env.dialTimeout "tcp" p.Address p.ConnectTimeout w with
    | .err e => (some e, p, record w (.dial p.Address p.ConnectTimeout (.err e)))
    | .ok conn =>
      (none, { p with conn := some conn },
        record w (.dial p.Address p.ConnectTimeout (.ok conn)))

/-- `Peer.Disconnect`: closes the connection and logs.  `none` is the nil
dereference of `p.conn.Close()` on a peer without a connection. -/
def Disconnect (p : Peer) (w : World) : Option (Peer × World) :=
  match p.conn with
  | none => none
  | some c => some (p, logDebug (record w (.close c)) ("[" ++ p.Address ++ "] Closed."))

/-- `Peer.WriteMessage`: one `wire.WriteMessage` with the peer's `pver` and the
client's network. -/
def WriteMessage (env : Env) (p : Peer) (w : World) (msg : Message) :
    Option GoError × World :=
  let r := env.writeMessage p.conn msg p.pver p.client.btcnet w
  (r, record w (.write p.conn msg p.pver p.client.btcnet r))

/-- `Peer.ReadMessage`: one `wire.ReadMessage` with the peer's `pver` and the
client's network. -/
def ReadMessage (env : Env) (p : Peer) (w : World) : ReadResult × World :=
  let r := env.readMessage p.conn p.pver p.client.btcnet w
  (r, record w (.read p.conn p.pver p.client.btcnet r))

/-- `wire.NewMsgVersion(me, you, nonce, lastBlock)`. -/
def NewMsgVersion (env : Env) (w : World) (me you : NetAddress) (nonce : Nat)
    (lastBlock : Int) : MsgVersion :=
  { ProtocolVersion := env.wireProtocolVersion
    Services := 0
    Timestamp := env.now w
    AddrYou := you
    AddrMe := me
    Nonce := nonce
    UserAgent := env.wireDefaultUserAgent
    LastBlock := lastBlock
    DisableRelayTx := false }

/-- `Peer.Handshake`. -/
def Handshake (env : Env) (p : Peer) (w : World) : Option GoError × Peer × World :=
  match p.conn with
  | none => (some "Peer is not connected, can\x27t handshake.", p, w)
  | some c =>
    let w := logDebug w ("[" ++ p.Address ++ "] Starting handshake.")
    match env.randomUint64 w with
    | .err e => (some e, p, { w with randCalls := w.randCalls + 1 })
    | .ok nonce =>
      let w := { w with randCalls := w.randCalls + 1 }
      let p := { p with nonce := nonce % 2 ^ 64 }
      let localAddr : NetAddress := { IP := c.localAddr.IP, Port := uint16 c.localAddr.Port }
      let remoteAddr : NetAddress := { IP := c.remoteAddr.IP, Port := uint16 c.remoteAddr.Port }
      let msgVersion := NewMsgVersion env w localAddr remoteAddr p.nonce 0
      let msgVersion := { msgVersion with UserAgent := p.client.userAgent }
      let msgVersion := { msgVersion with DisableRelayTx := true }
      match WriteMessage env p w (.version msgVersion) with
      | (some e, w) => (some e, p, w)
      | (none, w) =>
        match ReadMessage env p w with
        | (.err e, w) => (some e, p, w)
        | (.ok msg _, w) =>
          match msg with
          | .version vmsg =>
            let p := { p with ProtocolVersion := vmsg.ProtocolVersion }
            let p := { p with UserAgent := vmsg.UserAgent }
            let p := if uint32 vmsg.ProtocolVersion < p.pver
              then { p with pver := uint32 vmsg.ProtocolVersion } else p
            let w := logDebug w ("[" ++ p.Address ++ "] -> Version: " ++ vmsg.UserAgent)
            match WriteMessage env p w .verack with
            | (some e, w) => (some e, p, w)
            | (none, w) => (none, p, w)
          | _ =>
            -- the `%T` argument is `vmsg`, the nil `*wire.MsgVersion` left by
            -- the failed type assertion, not `msg`
            (some ("Did not receive version message: " ++ "*wire.MsgVersion"), p, w)

/-- The network calls made after the history had length `n`. -/
def eventsSince (n : Nat) (w : World) : List NetEvent := w.trace.drop n

/-- The messages handed to `wire.WriteMessage` in a list of network calls. -/
def writtenMessages : List NetEvent → List Message
  | [] => []
  | .write _ msg _ _ _ :: evs => msg :: writtenMessages evs
  | _ :: evs => writtenMessages evs

/-! ## Concrete inputs -/

/-- A world in which nothing has happened yet. -/
def emptyWorld : World := { trace := [], randCalls := 0, log := [] }

/-- A TCP connection from 10.0.0.1:50000 to 10.0.0.2:8333. -/
def demoConn : Conn :=
  { id := 1
    localAddr := { IP := [10, 0, 0, 1], Port := 50000 }
    remoteAddr := { IP := [10, 0, 0, 2], Port := 8333 } }

/-- A client speaking version `pver` on the main network. -/
def demoClient (pver : Nat) : Client :=
  { pver := pver, btcnet := 3652501241, userAgent := "/btc-crawl:0.1.1/" }

/-- The version message of a remote node advertising `pv`. -/
def remoteVersion (pv : Int) : MsgVersion :=
  { ProtocolVersion := pv
    Services := 1
    Timestamp := 1400000000
    AddrYou := { IP := [10, 0, 0, 1], Port := 50000 }
    AddrMe := { IP := [10, 0, 0, 2], Port := 8333 }
    Nonce := 42
    UserAgent := "/Satoshi:0.9.3/"
    LastBlock := 300000
    DisableRelayTx := false }

/-- An environment in which the dial yields `demoConn`, the random source draws
7, every read yields `reply`, the write of a verack yields `verackRes` and every
other write succeeds. -/
def scriptedEnv (reply : ReadResult) (verackRes : Option GoError) : Env :=
  { wireProtocolVersion := 70002
    wireDefaultUserAgent := "/btcwire:0.5.0/"
    now := fun _ => 1400000001
    dialTimeout := fun _ _ _ _ => .ok demoConn
    randomUint64 := fun _ => .ok 7
    writeMessage := fun _ msg _ _ _ =>
      match msg with
      | .verack => verackRes
      | _ => none
    readMessage := fun _ _ _ _ => reply }

/-- A fresh peer of `demoClient pver` after a successful `Connect`. -/
def connectedPeer (pver : Nat) : Peer :=
  { NewPeer (demoClient pver) "10.0.0.2:8333" with conn := some demoConn }

/-! ## Shared lemmas -/

/-- When the history grew by `evs`, the calls made since are `evs`. -/
theorem eventsSince_of_append (w w' : World) (evs : List NetEvent)
    (h : w'.trace = w.trace ++ evs) : eventsSince w.trace.length w' = evs := by
  simp [eventsSince, h]

/-- On a non-negative `int32` the conversion `uint32` changes nothing. -/
theorem uint32_of_nonneg (b : Int) (h0 : 0 ≤ b) (h1 : b < 2 ^ 31) :
    (uint32 b : Int) = b := by
  unfold uint32
  omega

/-- A successful `Connect` of a fresh peer only fills in `conn`. -/
theorem Connect_NewPeer_ok (env : Env) (client : Client) (address : String)
    (w0 w1 : World) (p1 : Peer)
    (h : Connect env (NewPeer client address) w0 = (none, p1, w1)) :
    ∃ c, p1 =
      { client := client
        conn := some c
        nonce := 0
        pver := client.pver
        Address := address
        UserAgent := ""
        ProtocolVersion := 0
        ConnectTimeout := 20 * timeSecond } := by
  unfold Connect at h
  simp only [NewPeer] at h
  split at h
  · simp at h
  · simp only [Prod.mk.injEq] at h
    rename_i c _
    exact ⟨c, h.2.1.symm⟩

/-- The five ways a `Handshake` on a connected peer can end: the nonce draw
fails; the version write fails; the read fails; the message read is not a
version message; a version message is read and the verack write returns `r`. -/
theorem Handshake_outcomes (env : Env) (p p' : Peer) (w w' : World) (c : Conn)
    (r : Option GoError) (hc : p.conn = some c)
    (hhs : Handshake env p w = (r, p', w')) :
    (∃ e, r = some e ∧ p' = p ∧ w'.trace = w.trace) ∨
    (∃ n vOut, vOut.UserAgent = p.client.userAgent ∧ vOut.DisableRelayTx = true ∧
      vOut.Nonce = n ∧
      ((∃ e, r = some e ∧ p' = { p with nonce := n } ∧
          w'.trace = w.trace ++
            [.write (some c) (.version vOut) p.pver p.client.btcnet (some e)]) ∨
       (∃ e, r = some e ∧ p' = { p with nonce := n } ∧
          w'.trace = w.trace ++
            [.write (some c) (.version vOut) p.pver p.client.btcnet none,
             .read (some c) p.pver p.client.btcnet (.err e)]) ∨
       (∃ msg raw, (∀ v, msg ≠ .version v) ∧
          r = some "Did not receive version message: *wire.MsgVersion" ∧
          p' = { p with nonce := n } ∧
          w'.trace = w.trace ++
            [.write (some c) (.version vOut) p.pver p.client.btcnet none,
             .read (some c) p.pver p.client.btcnet (.ok msg raw)]) ∨
       (∃ v raw,
          p' = { p with
                  nonce := n
                  ProtocolVersion := v.ProtocolVersion
                  UserAgent := v.UserAgent
                  pver := if uint32 v.ProtocolVersion < p.pver
                    then uint32 v.ProtocolVersion else p.pver } ∧
          w'.trace = w.trace ++
            [.write (some c) (.version vOut) p.pver p.client.btcnet none,
             .read (some c) p.pver p.client.btcnet (.ok (.version v) raw),
             .write (some c) .verack p'.pver p.client.btcnet r]))) := by
  obtain ⟨cl, conn, nonce, pver, addr, ua, pv, ct⟩ := p
  simp only at hc
  subst hc
  unfold Handshake at hhs
  simp only at hhs
  split at hhs
  · simp only [Prod.mk.injEq] at hhs
    obtain ⟨rfl, rfl, rfl⟩ := hhs
    exact Or.inl ⟨_, rfl, rfl, rfl⟩
  · rename_i x a hr
    simp only [NewMsgVersion] at hhs
    generalize hvo : MsgVersion.mk _ _ _ _ _ (a % 2 ^ 64) cl.userAgent _ true = vOut at hhs
    have hua : vOut.UserAgent = cl.userAgent := by rw [← hvo]
    have hrl : vOut.DisableRelayTx = true := by rw [← hvo]
    have hno : vOut.Nonce = a % 2 ^ 64 := by rw [← hvo]
    clear hvo
    refine Or.inr ⟨a % 2 ^ 64, vOut, hua, hrl, hno, ?_⟩
    simp only [WriteMessage, ReadMessage] at hhs
    generalize env.writeMessage _ (Message.version vOut) _ _ _ = r1 at hhs
    cases r1 with
    | some e =>
      simp only [Prod.mk.injEq] at hhs
      obtain ⟨rfl, rfl, rfl⟩ := hhs
      exact Or.inl ⟨e, rfl, rfl, rfl⟩
    | none =>
      simp only at hhs
      generalize env.readMessage _ _ _ _ = r2 at hhs
      cases r2 with
      | err e =>
        simp only [Prod.mk.injEq] at hhs
        obtain ⟨rfl, rfl, rfl⟩ := hhs
        exact Or.inr (Or.inl ⟨e, rfl, rfl, by simp [record, logDebug]⟩)
      | ok msg raw =>
        simp only at hhs
        cases msg with
        | version v =>
          simp only at hhs
          by_cases hlt : uint32 v.ProtocolVersion < pver
          · simp only [if_pos hlt] at hhs
            generalize env.writeMessage _ Message.verack _ _ _ = r3 at hhs
            refine Or.inr (Or.inr (Or.inr ⟨v, raw, ?_⟩))
            cases r3 <;>
              (simp only [Prod.mk.injEq] at hhs
               obtain ⟨rfl, rfl, rfl⟩ := hhs
               simp [record, logDebug, hlt])
          · simp only [if_neg hlt] at hhs
            generalize env.writeMessage _ Message.verack _ _ _ = r3 at hhs
            refine Or.inr (Or.inr (Or.inr ⟨v, raw, ?_⟩))
            cases r3 <;>
              (simp only [Prod.mk.injEq] at hhs
               obtain ⟨rfl, rfl, rfl⟩ := hhs
               simp [record, logDebug, hlt])
        | verack =>
          simp only [Prod.mk.injEq] at hhs
          obtain ⟨rfl, rfl, rfl⟩ := hhs
          exact Or.inr (Or.inr (Or.inl ⟨Message.verack, raw, by simp, rfl, rfl, by simp [record, logDebug]⟩))
        | ping k =>
          simp only [Prod.mk.injEq] at hhs
          obtain ⟨rfl, rfl, rfl⟩ := hhs
          exact Or.inr (Or.inr (Or.inl ⟨Message.ping k, raw, by simp, rfl, rfl, by simp [record, logDebug]⟩))
        | other t =>
          simp only [Prod.mk.injEq] at hhs
          obtain ⟨rfl, rfl, rfl⟩ := hhs
          exact Or.inr (Or.inr (Or.inl ⟨Message.other t, raw, by simp, rfl, rfl, by simp [record, logDebug]⟩))

/-- A `Handshake` in which a version message `v` was read updated the peer from
`v` and made exactly three calls: write version, read, write verack. -/
theorem Handshake_version_received (env : Env) (p p' : Peer) (w w' : World) (c : Conn)
    (r : Option GoError) (c0 : Option Conn) (pv net : Nat) (v : MsgVersion)
    (raw : List Nat) (hc : p.conn = some c)
    (hhs : Handshake env p w = (r, p', w'))
    (hrecv : NetEvent.read c0 pv net (.ok (.version v) raw) ∈
      eventsSince w.trace.length w') :
    ∃ n vOut, vOut.UserAgent = p.client.userAgent ∧ vOut.DisableRelayTx = true ∧
      vOut.Nonce = n ∧
      p' = { p with
              nonce := n
              ProtocolVersion := v.ProtocolVersion
              UserAgent := v.UserAgent
              pver := if uint32 v.ProtocolVersion < p.pver
                then uint32 v.ProtocolVersion else p.pver } ∧
      eventsSince w.trace.length w' =
        [.write (some c) (.version vOut) p.pver p.client.btcnet none,
         .read (some c) p.pver p.client.btcnet (.ok (.version v) raw),
         .write (some c) .verack p'.pver p.client.btcnet r] := by
  rcases Handshake_outcomes env p p' w w' c r hc hhs with
    ⟨e, -, -, ht⟩ | ⟨n, vOut, h1, h2, h3, ⟨e, -, -, ht⟩ | ⟨e, -, -, ht⟩ |
      ⟨msg, raw1, hne, -, -, ht⟩ | ⟨v1, raw1, hp, ht⟩⟩
  · have ht0 : w'.trace = w.trace ++ [] := by simpa using ht
    rw [eventsSince_of_append w w' _ ht0] at hrecv
    simp at hrecv
  · rw [eventsSince_of_append w w' _ ht] at hrecv
    simp at hrecv
  · rw [eventsSince_of_append w w' _ ht] at hrecv
    simp at hrecv
  · rw [eventsSince_of_append w w' _ ht] at hrecv
    simp at hrecv
    exact absurd hrecv.2.2.2.1.symm (hne v)
  · rw [eventsSince_of_append w w' _ ht] at hrecv ⊢
    simp at hrecv
    obtain ⟨-, -, -, rfl, rfl⟩ := hrecv
    exact ⟨n, vOut, h1, h2, h3, hp, rfl⟩

/-! ## Connection lifecycle -/

/-- C2: on a peer that already holds a connection, `Connect` returns the
"already connected" error, and neither the peer nor the world changes: no dial
is made and the connection held is the same as before. -/
theorem Connect_already_connected (env : Env) (p : Peer) (w : World) (c : Conn)
    (hc : p.conn = some c) :
    Connect env p w = (some "Peer already connected, can\x27t connect again.", p, w) := by
  unfold Connect
  rw [hc]

/-- C2 at a connected peer: the second `Connect` fails and changes nothing. -/
theorem Connect_already_connected_witness :
    Connect (scriptedEnv (.err "EOF") none) (connectedPeer 70015) emptyWorld =
      (some "Peer already connected, can\x27t connect again.", connectedPeer 70015,
        emptyWorld) :=
  Connect_already_connected (scriptedEnv (.err "EOF") none) (connectedPeer 70015)
    emptyWorld demoConn rfl

/-- C3: on a peer without a connection, `Handshake` returns the "not connected"
error, makes no call on the network, and leaves the peer (the nonce included)
and the world as they were. -/
theorem Handshake_not_connected (env : Env) (p : Peer) (w : World)
    (hc : p.conn = none) :
    Handshake env p w = (some "Peer is not connected, can\x27t handshake.", p, w) ∧
      eventsSince w.trace.length (Handshake env p w).2.2 = [] ∧
      (Handshake env p w).2.1.nonce = p.nonce := by
  have h : Handshake env p w =
      (some "Peer is not connected, can\x27t handshake.", p, w) := by
    unfold Handshake
    rw [hc]
  rw [h]
  exact ⟨rfl, by simp [eventsSince], rfl⟩

/-- C3 at a fresh peer that was never connected. -/
theorem Handshake_not_connected_witness :
    Handshake (scriptedEnv (.err "EOF") none) (NewPeer (demoClient 70015) "10.0.0.2:8333")
        emptyWorld =
      (some "Peer is not connected, can\x27t handshake.",
        NewPeer (demoClient 70015) "10.0.0.2:8333", emptyWorld) :=
  (Handshake_not_connected (scriptedEnv (.err "EOF") none)
    (NewPeer (demoClient 70015) "10.0.0.2:8333") emptyWorld rfl).1

/-- C8 as stated fails: after `Disconnect` the peer still holds its connection. -/
theorem Disconnect_conn_not_cleared :
    (connectedPeer 70015).conn = some demoConn ∧
      (Disconnect (connectedPeer 70015) emptyWorld).map (fun r => r.1.conn) =
        some (some demoConn) ∧
      (Disconnect (connectedPeer 70015) emptyWorld).map (fun r => r.1.conn) ≠
        some none := by
  decide

/-- C8 amended: on a peer holding a connection `c`, `Disconnect` closes `c`
(one `close` call, one log line) and returns the peer unchanged, `conn`
included; a `Connect` afterwards still fails with "already connected". -/
theorem Disconnect_closes_keeps_conn (env : Env) (p : Peer) (w : World) (c : Conn)
    (hc : p.conn = some c) :
    ∃ w', Disconnect p w = some (p, w') ∧
      eventsSince w.trace.length w' = [.close c] ∧
      w'.log = w.log ++ ["[" ++ p.Address ++ "] Closed."] ∧
      Connect env p w' =
        (some "Peer already connected, can\x27t connect again.", p, w') := by
  refine ⟨logDebug (record w (.close c)) ("[" ++ p.Address ++ "] Closed."), ?_, ?_, rfl, ?_⟩
  · unfold Disconnect
    rw [hc]
  · simp [eventsSince, logDebug, record]
  · unfold Connect
    rw [hc]

/-- C8 amended, at a connected peer in an empty world. -/
theorem Disconnect_closes_keeps_conn_witness :
    ∃ w', Disconnect (connectedPeer 70015) emptyWorld = some (connectedPeer 70015, w') ∧
      eventsSince emptyWorld.trace.length w' = [.close demoConn] ∧
      w'.log = emptyWorld.log ++ ["[" ++ (connectedPeer 70015).Address ++ "] Closed."] ∧
      Connect (scriptedEnv (.err "EOF") none) (connectedPeer 70015) w' =
        (some "Peer already connected, can\x27t connect again.", connectedPeer 70015, w') :=
  Disconnect_closes_keeps_conn (scriptedEnv (.err "EOF") none) (connectedPeer 70015)
    emptyWorld demoConn rfl

/-! ## Handshake -/

/-- C1: for a peer built by `NewPeer` from a client with local version `a` and
then connected, and a received version message advertising a non-negative
`int32` version `b`: if `Handshake` returns no error, `pver` is `min a b`. -/
theorem Handshake_negotiates_min (env : Env) (client : Client) (address : String)
    (w0 w1 w2 : World) (p1 p2 : Peer) (c0 : Option Conn) (pv net : Nat)
    (v : MsgVersion) (raw : List Nat)
    (hconn : Connect env (NewPeer client address) w0 = (none, p1, w1))
    (hhs : Handshake env p1 w1 = (none, p2, w2))
    (hrecv : NetEvent.read c0 pv net (.ok (.version v) raw) ∈
      eventsSince w1.trace.length w2)
    (hb0 : 0 ≤ v.ProtocolVersion) (hb1 : v.ProtocolVersion < 2 ^ 31) :
    (p2.pver : Int) = min (client.pver : Int) v.ProtocolVersion := by
  obtain ⟨c, rfl⟩ := Connect_NewPeer_ok env client address w0 w1 p1 hconn
  obtain ⟨n, vOut, -, -, -, hp, -⟩ :=
    Handshake_version_received env _ p2 w1 w2 c none c0 pv net v raw rfl hhs hrecv
  have hu := uint32_of_nonneg v.ProtocolVersion hb0 hb1
  rw [hp]
  simp only [NewPeer]
  split <;> omega

/-- C1 at local version 70015 and remote version 70002: negotiated 70002. -/
theorem Handshake_negotiates_min_witness :
    ((Handshake (scriptedEnv (.ok (.version (remoteVersion 70002)) []) none)
        (connectedPeer 70015)
        (record emptyWorld (.dial "10.0.0.2:8333" 20000000000 (.ok demoConn)))).2.1.pver : Int)
      = min ((demoClient 70015).pver : Int) (remoteVersion 70002).ProtocolVersion :=
  Handshake_negotiates_min (scriptedEnv (.ok (.version (remoteVersion 70002)) []) none)
    (demoClient 70015) "10.0.0.2:8333" emptyWorld
    (record emptyWorld (.dial "10.0.0.2:8333" 20000000000 (.ok demoConn)))
    (Handshake (scriptedEnv (.ok (.version (remoteVersion 70002)) []) none)
        (connectedPeer 70015)
        (record emptyWorld (.dial "10.0.0.2:8333" 20000000000 (.ok demoConn)))).2.2
    (connectedPeer 70015)
    (Handshake (scriptedEnv (.ok (.version (remoteVersion 70002)) []) none)
        (connectedPeer 70015)
        (record emptyWorld (.dial "10.0.0.2:8333" 20000000000 (.ok demoConn)))).2.1
    (some demoConn) 70015 3652501241 (remoteVersion 70002) []
    rfl rfl (by decide) (by decide) (by decide)

/-- C7: for a connected peer and a received version message `v`: if `Handshake`
returns no error, `UserAgent` is the user agent of `v` and `ProtocolVersion` is
the version `v` advertises. -/
theorem Handshake_records_remote (env : Env) (p p' : Peer) (w w' : World) (c : Conn)
    (c0 : Option Conn) (pv net : Nat) (v : MsgVersion) (raw : List Nat)
    (hc : p.conn = some c)
    (hhs : Handshake env p w = (none, p', w'))
    (hrecv : NetEvent.read c0 pv net (.ok (.version v) raw) ∈
      eventsSince w.trace.length w') :
    p'.UserAgent = v.UserAgent ∧ p'.ProtocolVersion = v.ProtocolVersion := by
  obtain ⟨n, vOut, -, -, -, hp, -⟩ :=
    Handshake_version_received env p p' w w' c none c0 pv net v raw hc hhs hrecv
  rw [hp]
  exact ⟨rfl, rfl⟩

/-- C7 at a remote node announcing "/Satoshi:0.9.3/" and version 70002. -/
theorem Handshake_records_remote_witness :
    (Handshake (scriptedEnv (.ok (.version (remoteVersion 70002)) []) none)
        (connectedPeer 70015) emptyWorld).2.1.UserAgent = "/Satoshi:0.9.3/" ∧
    (Handshake (scriptedEnv (.ok (.version (remoteVersion 70002)) []) none)
        (connectedPeer 70015) emptyWorld).2.1.ProtocolVersion = 70002 :=
  Handshake_records_remote (scriptedEnv (.ok (.version (remoteVersion 70002)) []) none)
    (connectedPeer 70015)
    (Handshake (scriptedEnv (.ok (.version (remoteVersion 70002)) []) none)
        (connectedPeer 70015) emptyWorld).2.1
    emptyWorld
    (Handshake (scriptedEnv (.ok (.version (remoteVersion 70002)) []) none)
        (connectedPeer 70015) emptyWorld).2.2
    demoConn (some demoConn) 70015 3652501241 (remoteVersion 70002) []
    rfl rfl (by decide)

/-- C4: for a connected peer, if the message read during `Handshake` is not a
version message, `Handshake` returns an error and the only message written
during the call is the outbound version message; no verack is written. -/
theorem Handshake_unexpected_message (env : Env) (p p' : Peer) (w w' : World)
    (c : Conn) (r : Option GoError) (c0 : Option Conn) (pv net : Nat) (msg : Message)
    (raw : List Nat) (hc : p.conn = some c)
    (hhs : Handshake env p w = (r, p', w'))
    (hrecv : NetEvent.read c0 pv net (.ok msg raw) ∈ eventsSince w.trace.length w')
    (hmsg : ∀ v, msg ≠ .version v) :
    (∃ e, r = some e) ∧
      (∃ vOut, writtenMessages (eventsSince w.trace.length w') = [.version vOut]) ∧
      Message.verack ∉ writtenMessages (eventsSince w.trace.length w') := by
  rcases Handshake_outcomes env p p' w w' c r hc hhs with
    ⟨e, -, -, ht⟩ | ⟨n, vOut, -, -, -, ⟨e, -, -, ht⟩ | ⟨e, -, -, ht⟩ |
      ⟨msg1, raw1, -, hr, -, ht⟩ | ⟨v1, raw1, -, ht⟩⟩
  · have ht0 : w'.trace = w.trace ++ [] := by simpa using ht
    rw [eventsSince_of_append w w' _ ht0] at hrecv
    simp at hrecv
  · rw [eventsSince_of_append w w' _ ht] at hrecv
    simp at hrecv
  · rw [eventsSince_of_append w w' _ ht] at hrecv
    simp at hrecv
  · rw [eventsSince_of_append w w' _ ht]
    exact ⟨⟨_, hr⟩, ⟨vOut, by simp [writtenMessages]⟩, by simp [writtenMessages]⟩
  · rw [eventsSince_of_append w w' _ ht] at hrecv
    simp at hrecv
    exact absurd hrecv.2.2.2.1 (hmsg v1)

/-- C4 at a remote node that answers the version message with a ping. -/
theorem Handshake_unexpected_message_witness :
    (∃ e, (Handshake (scriptedEnv (.ok (.ping 5) []) none) (connectedPeer 70015)
        emptyWorld).1 = some e) ∧
      (∃ vOut, writtenMessages (eventsSince emptyWorld.trace.length
        (Handshake (scriptedEnv (.ok (.ping 5) []) none) (connectedPeer 70015)
          emptyWorld).2.2) = [.version vOut]) ∧
      Message.verack ∉ writtenMessages (eventsSince emptyWorld.trace.length
        (Handshake (scriptedEnv (.ok (.ping 5) []) none) (connectedPeer 70015)
          emptyWorld).2.2) :=
  Handshake_unexpected_message (scriptedEnv (.ok (.ping 5) []) none) (connectedPeer 70015)
    (Handshake (scriptedEnv (.ok (.ping 5) []) none) (connectedPeer 70015) emptyWorld).2.1
    emptyWorld
    (Handshake (scriptedEnv (.ok (.ping 5) []) none) (connectedPeer 70015) emptyWorld).2.2
    demoConn
    (Handshake (scriptedEnv (.ok (.ping 5) []) none) (connectedPeer 70015) emptyWorld).1
    (some demoConn) 70015 3652501241 (.ping 5) [] rfl rfl (by decide)
    (fun v h => Message.noConfusion h)

/-- C5, the code at two replies of different types: whether the remote answers
with a verack or with a ping, `Handshake` returns the same error text, which
names `*wire.MsgVersion` and neither of the two types received. -/
theorem Handshake_error_text_same_for_verack_and_ping :
    goTypeName .verack ≠ goTypeName (.ping 5) ∧
      (Handshake (scriptedEnv (.ok .verack []) none) (connectedPeer 70015) emptyWorld).1 =
        some "Did not receive version message: *wire.MsgVersion" ∧
      (Handshake (scriptedEnv (.ok (.ping 5) []) none) (connectedPeer 70015) emptyWorld).1 =
        some "Did not receive version message: *wire.MsgVersion" := by
  decide

/-- C6 as stated fails: the version message is read, the verack write fails,
`Handshake` returns that error, and `UserAgent` is already the remote one. -/
theorem Handshake_failed_verack_sets_UserAgent :
    (NewPeer (demoClient 70015) "10.0.0.2:8333").UserAgent = "" ∧
      Connect (scriptedEnv (.ok (.version (remoteVersion 70002)) []) (some "broken pipe"))
        (NewPeer (demoClient 70015) "10.0.0.2:8333") emptyWorld =
        (none, connectedPeer 70015,
          record emptyWorld (.dial "10.0.0.2:8333" 20000000000 (.ok demoConn))) ∧
      (Handshake (scriptedEnv (.ok (.version (remoteVersion 70002)) []) (some "broken pipe"))
        (connectedPeer 70015)
        (record emptyWorld (.dial "10.0.0.2:8333" 20000000000 (.ok demoConn)))).1 =
        some "broken pipe" ∧
      (Handshake (scriptedEnv (.ok (.version (remoteVersion 70002)) []) (some "broken pipe"))
        (connectedPeer 70015)
        (record emptyWorld (.dial "10.0.0.2:8333" 20000000000 (.ok demoConn)))).2.1.UserAgent =
        "/Satoshi:0.9.3/" ∧
      (Handshake (scriptedEnv (.ok (.version (remoteVersion 70002)) []) (some "broken pipe"))
        (connectedPeer 70015)
        (record emptyWorld (.dial "10.0.0.2:8333" 20000000000 (.ok demoConn)))).2.1.UserAgent ≠
        "" := by
  decide

/-- C6 amended: for a fresh, connected peer, if `Handshake` returns an error and
no version message was read during the call, `UserAgent` is still empty; if a
version message `v` was read (so the error is that of the verack write),
`UserAgent` is the user agent of `v`. -/
theorem Handshake_failure_UserAgent (env : Env) (client : Client) (address : String)
    (w0 w1 w2 : World) (p1 p2 : Peer) (e : GoError)
    (hconn : Connect env (NewPeer client address) w0 = (none, p1, w1))
    (hhs : Handshake env p1 w1 = (some e, p2, w2)) :
    ((∀ c0 pv net v raw, NetEvent.read c0 pv net (.ok (.version v) raw) ∉
        eventsSince w1.trace.length w2) → p2.UserAgent = "") ∧
      (∀ c0 pv net v raw, NetEvent.read c0 pv net (.ok (.version v) raw) ∈
        eventsSince w1.trace.length w2 →
        p2.UserAgent = v.UserAgent ∧
          ∃ c, eventsSince w1.trace.length w2 =
            (eventsSince w1.trace.length w2).take 2 ++
              [.write (some c) .verack p2.pver client.btcnet (some e)]) := by
  obtain ⟨c, rfl⟩ := Connect_NewPeer_ok env client address w0 w1 p1 hconn
  constructor
  · intro hno
    rcases Handshake_outcomes env _ p2 w1 w2 c (some e) rfl hhs with
      ⟨e1, -, hp, -⟩ | ⟨n, vOut, -, -, -, ⟨e1, -, hp, -⟩ | ⟨e1, -, hp, -⟩ |
        ⟨msg1, raw1, -, -, hp, -⟩ | ⟨v1, raw1, -, ht⟩⟩
    · rw [hp]
    · rw [hp]
    · rw [hp]
    · rw [hp]
    · exfalso
      refine hno (some c) client.pver client.btcnet v1 raw1 ?_
      rw [eventsSince_of_append w1 w2 _ ht]
      simp
  · intro c0 pv net v raw hrecv
    obtain ⟨n, vOut, -, -, -, hp, ht⟩ :=
      Handshake_version_received env _ p2 w1 w2 c (some e) c0 pv net v raw rfl hhs hrecv
    refine ⟨by rw [hp], c, ?_⟩
    rw [ht]
    rfl

/-- C6 amended, at a remote node that closes the connection before answering:
the read fails and `UserAgent` stays empty. -/
theorem Handshake_failure_UserAgent_witness :
    (Handshake (scriptedEnv (.err "EOF") none) (connectedPeer 70015)
      (record emptyWorld (.dial "10.0.0.2:8333" 20000000000 (.ok demoConn)))).2.1.UserAgent =
      "" := by
  refine (Handshake_failure_UserAgent (scriptedEnv (.err "EOF") none) (demoClient 70015)
    "10.0.0.2:8333" emptyWorld
    (record emptyWorld (.dial "10.0.0.2:8333" 20000000000 (.ok demoConn)))
    (Handshake (scriptedEnv (.err "EOF") none) (connectedPeer 70015)
      (record emptyWorld (.dial "10.0.0.2:8333" 20000000000 (.ok demoConn)))).2.2
    (connectedPeer 70015)
    (Handshake (scriptedEnv (.err "EOF") none) (connectedPeer 70015)
      (record emptyWorld (.dial "10.0.0.2:8333" 20000000000 (.ok demoConn)))).2.1
    "EOF" rfl rfl).1 ?_
  intro c0 pv net v raw h
  have hev : eventsSince
      (record emptyWorld (.dial "10.0.0.2:8333" 20000000000 (.ok demoConn))).trace.length
      (Handshake (scriptedEnv (.err "EOF") none) (connectedPeer 70015)
        (record emptyWorld (.dial "10.0.0.2:8333" 20000000000 (.ok demoConn)))).2.2 =
      [.write (some demoConn)
          (.version
            { ProtocolVersion := 70002
              Services := 0
              Timestamp := 1400000001
              AddrYou := { IP := [10, 0, 0, 2], Port := 8333 }
              AddrMe := { IP := [10, 0, 0, 1], Port := 50000 }
              Nonce := 7
              UserAgent := "/btc-crawl:0.1.1/"
              LastBlock := 0
              DisableRelayTx := true })
          70015 3652501241 none,
        .read (some demoConn) 70015 3652501241 (.err "EOF")] := by
    decide
  rw [hev] at h
  simp at h

/-- C9: in a successful `Handshake` of a fresh, connected peer with local version
`a` and a received non-negative `int32` version `b`, the calls on the network
are, in this order, write version, read, write verack; the version message is
written and the reply is read with `a`, the verack is written with `min a b`,
and every later `WriteMessage` and `ReadMessage` of that peer passes `min a b`
and the network of the client to the codec. -/
theorem Handshake_framing (env : Env) (client : Client) (address : String)
    (w0 w1 w2 : World) (p1 p2 : Peer) (c0 : Option Conn) (pv net : Nat)
    (v : MsgVersion) (raw : List Nat)
    (hconn : Connect env (NewPeer client address) w0 = (none, p1, w1))
    (hhs : Handshake env p1 w1 = (none, p2, w2))
    (hrecv : NetEvent.read c0 pv net (.ok (.version v) raw) ∈
      eventsSince w1.trace.length w2)
    (hb0 : 0 ≤ v.ProtocolVersion) (hb1 : v.ProtocolVersion < 2 ^ 31) :
    ∃ c vOut, p1.conn = some c ∧ vOut.UserAgent = client.userAgent ∧
      eventsSince w1.trace.length w2 =
        [.write (some c) (.version vOut) client.pver client.btcnet none,
         .read (some c) client.pver client.btcnet (.ok (.version v) raw),
         .write (some c) .verack (min client.pver v.ProtocolVersion.toNat)
           client.btcnet none] ∧
      (∀ (msg : Message) (w3 : World),
        WriteMessage env p2 w3 msg =
          (env.writeMessage (some c) msg (min client.pver v.ProtocolVersion.toNat)
              client.btcnet w3,
            record w3 (.write (some c) msg (min client.pver v.ProtocolVersion.toNat)
              client.btcnet
              (env.writeMessage (some c) msg (min client.pver v.ProtocolVersion.toNat)
                client.btcnet w3)))) ∧
      (∀ w3 : World,
        ReadMessage env p2 w3 =
          (env.readMessage (some c) (min client.pver v.ProtocolVersion.toNat)
              client.btcnet w3,
            record w3 (.read (some c) (min client.pver v.ProtocolVersion.toNat)
              client.btcnet
              (env.readMessage (some c) (min client.pver v.ProtocolVersion.toNat)
                client.btcnet w3)))) := by
  obtain ⟨c, rfl⟩ := Connect_NewPeer_ok env client address w0 w1 p1 hconn
  obtain ⟨n, vOut, hua, -, -, hp, ht⟩ :=
    Handshake_version_received env _ p2 w1 w2 c none c0 pv net v raw rfl hhs hrecv
  have hu := uint32_of_nonneg v.ProtocolVersion hb0 hb1
  have hmin : (if uint32 v.ProtocolVersion < client.pver
      then uint32 v.ProtocolVersion else client.pver) =
      min client.pver v.ProtocolVersion.toNat := by
    split <;> omega
  simp only [hmin] at hp
  subst hp
  exact ⟨c, vOut, rfl, hua, ht, fun _ _ => rfl, fun _ => rfl⟩

/-- C9 at local version 70015 and remote version 70002: the verack and a later
`getaddr` are framed with 70002. -/
theorem Handshake_framing_witness :
    ∃ c vOut, (connectedPeer 70015).conn = some c ∧
      vOut.UserAgent = (demoClient 70015).userAgent ∧
      eventsSince
          (record emptyWorld
            (.dial "10.0.0.2:8333" 20000000000 (.ok demoConn))).trace.length
          (Handshake (scriptedEnv (.ok (.version (remoteVersion 70002)) []) none)
            (connectedPeer 70015)
            (record emptyWorld (.dial "10.0.0.2:8333" 20000000000 (.ok demoConn)))).2.2 =
        [.write (some c) (.version vOut) 70015 3652501241 none,
         .read (some c) 70015 3652501241 (.ok (.version (remoteVersion 70002)) []),
         .write (some c) .verack 70002 3652501241 none] ∧
      (WriteMessage (scriptedEnv (.ok (.version (remoteVersion 70002)) []) none)
          (Handshake (scriptedEnv (.ok (.version (remoteVersion 70002)) []) none)
            (connectedPeer 70015)
            (record emptyWorld (.dial "10.0.0.2:8333" 20000000000 (.ok demoConn)))).2.1
          emptyWorld (.other "*wire.MsgGetAddr")).2.trace =
        [.write (some c) (.other "*wire.MsgGetAddr") 70002 3652501241 none] := by
  obtain ⟨c, vOut, h1, h2, h3, h4, -⟩ :=
    Handshake_framing (scriptedEnv (.ok (.version (remoteVersion 70002)) []) none)
      (demoClient 70015) "10.0.0.2:8333" emptyWorld
      (record emptyWorld (.dial "10.0.0.2:8333" 20000000000 (.ok demoConn)))
      (Handshake (scriptedEnv (.ok (.version (remoteVersion 70002)) []) none)
        (connectedPeer 70015)
        (record emptyWorld (.dial "10.0.0.2:8333" 20000000000 (.ok demoConn)))).2.2
      (connectedPeer 70015)
      (Handshake (scriptedEnv (.ok (.version (remoteVersion 70002)) []) none)
        (connectedPeer 70015)
        (record emptyWorld (.dial "10.0.0.2:8333" 20000000000 (.ok demoConn)))).2.1
      (some demoConn) 70015 3652501241 (remoteVersion 70002) []
      rfl rfl (by decide) (by decide) (by decide)
  refine ⟨c, vOut, h1, h2, h3, ?_⟩
  rw [h4]
  rfl

/-- C10 as stated fails: with negotiated version `2^32 - 1` before the call and
a received version `-2`, `Handshake` lowers the negotiated version to
`2^32 - 2`. -/
theorem Handshake_negative_version_lowers :
    (connectedPeer 4294967295).pver = 4294967295 ∧
      (remoteVersion (-2)).ProtocolVersion < 0 ∧
      NetEvent.read (some demoConn) 4294967295 3652501241
          (.ok (.version (remoteVersion (-2))) []) ∈
        eventsSince emptyWorld.trace.length
          (Handshake (scriptedEnv (.ok (.version (remoteVersion (-2))) []) none)
            (connectedPeer 4294967295) emptyWorld).2.2 ∧
      (Handshake (scriptedEnv (.ok (.version (remoteVersion (-2))) []) none)
        (connectedPeer 4294967295) emptyWorld).2.1.pver = 4294967294 ∧
      (Handshake (scriptedEnv (.ok (.version (remoteVersion (-2))) []) none)
        (connectedPeer 4294967295) emptyWorld).2.1.pver ≠
        (connectedPeer 4294967295).pver := by
  decide

/-- C10 amended: for a connected peer with negotiated version `p` before the
call and a received `int32` version `b`, the negotiated version after
`Handshake` is `min p (b mod 2^32)`, hence at most `p`, and `ProtocolVersion`
records `b`; for `b < 0` it is `min p (b + 2^32)`, which is `p` itself whenever
`p ≤ 2^31`. -/
theorem Handshake_never_raises (env : Env) (p p' : Peer) (w w' : World) (c : Conn)
    (r : Option GoError) (c0 : Option Conn) (pv net : Nat) (v : MsgVersion)
    (raw : List Nat) (hc : p.conn = some c)
    (hhs : Handshake env p w = (r, p', w'))
    (hrecv : NetEvent.read c0 pv net (.ok (.version v) raw) ∈
      eventsSince w.trace.length w')
    (hb0 : -2 ^ 31 ≤ v.ProtocolVersion) (hb1 : v.ProtocolVersion < 2 ^ 31) :
    (p'.pver : Int) = min (p.pver : Int) (v.ProtocolVersion % 2 ^ 32) ∧
      p'.pver ≤ p.pver ∧
      p'.ProtocolVersion = v.ProtocolVersion ∧
      (v.ProtocolVersion < 0 →
        (p'.pver : Int) = min (p.pver : Int) (v.ProtocolVersion + 2 ^ 32)) ∧
      (v.ProtocolVersion < 0 → p.pver ≤ 2 ^ 31 → p'.pver = p.pver) := by
  obtain ⟨n, vOut, -, -, -, hp, -⟩ :=
    Handshake_version_received env p p' w w' c r c0 pv net v raw hc hhs hrecv
  have hpv : p'.pver = if uint32 v.ProtocolVersion < p.pver
      then uint32 v.ProtocolVersion else p.pver := by rw [hp]
  have hPV : p'.ProtocolVersion = v.ProtocolVersion := by rw [hp]
  have hu : (uint32 v.ProtocolVersion : Int) = v.ProtocolVersion % 2 ^ 32 := by
    unfold uint32
    omega
  refine ⟨?_, ?_, hPV, ?_, ?_⟩
  · rw [hpv]
    split <;> omega
  · rw [hpv]
    split <;> omega
  · intro hneg
    rw [hpv]
    split <;> omega
  · intro hneg hle
    rw [hpv]
    split <;> omega

/-- C10 amended, at negotiated version 70015 and a received version `-1`: the
negotiated version stays 70015 and `ProtocolVersion` records `-1`. -/
theorem Handshake_never_raises_witness :
    (Handshake (scriptedEnv (.ok (.version (remoteVersion (-1))) []) none)
        (connectedPeer 70015) emptyWorld).2.1.pver = (connectedPeer 70015).pver ∧
      (Handshake (scriptedEnv (.ok (.version (remoteVersion (-1))) []) none)
        (connectedPeer 70015) emptyWorld).2.1.ProtocolVersion = -1 :=
  have h := Handshake_never_raises
    (scriptedEnv (.ok (.version (remoteVersion (-1))) []) none)
    (connectedPeer 70015)
    (Handshake (scriptedEnv (.ok (.version (remoteVersion (-1))) []) none)
      (connectedPeer 70015) emptyWorld).2.1
    emptyWorld
    (Handshake (scriptedEnv (.ok (.version (remoteVersion (-1))) []) none)
      (connectedPeer 70015) emptyWorld).2.2
    demoConn
    (Handshake (scriptedEnv (.ok (.version (remoteVersion (-1))) []) none)
      (connectedPeer 70015) emptyWorld).1
    (some demoConn) 70015 3652501241 (remoteVersion (-1)) []
    rfl rfl (by decide) (by decide) (by decide)
  ⟨h.2.2.2.2 (by decide) (by decide), h.2.2.1⟩

end BtcCrawl
